import Mathlib

/-!
Shallow embedding of the aws-cdk-cross-stack-references repository.

The repository contains four stack classes and one entry point:
  * `UserServiceStack` (src/lib/producer.ts): creates a DynamoDB `TableV2`
    named "Users" and exposes it as `public readonly usersTable`.
  * `OrderServiceStack` (src/lib/consumer-with-csr.ts): receives an
    `ITableV2` handle, defines a `NodejsFunction` with environment
    `USER_TABLE = props.usersTable.tableName`, and calls `grantReadData`.
  * `ConfigBasedUserServiceStack` (src/lib/producer-config-based.ts):
    creates the same table with `tableName = props.usersTableName` and also
    exposes it as `public readonly usersTable`.
  * `ConfigBasedOrderServiceStack` (src/lib/consumer-config-based.ts):
    receives only a table name string, re-resolves a handle with
    `TableV2.fromTableAttributes` (empty `globalIndexes`), defines a
    `NodejsFunction` with environment `USER_TABLE_NAME = props.usersTableName`,
    and calls `grantReadData`.
  * `src/bin/problemStack.ts`: wires one app with all four stacks, passing
    the handle to `OrderServiceStack` and the string "Users" to both
    config-based stacks.

Stateful construct registration is embedded as explicit record fields: each
stack value records the tables, functions and grants its constructor
registers, together with the public attributes its class declares.
-/

/-- DynamoDB attribute types (`aws-cdk-lib/aws-dynamodb` `AttributeType`);
only `STRING` is used by the repository. -/
inductive AttributeType where
  | STRING
  | NUMBER
  | BINARY
deriving DecidableEq, Repr

/-- A key attribute: `{ name, type }` as in the `partitionKey` properties. -/
structure AttributeDef where
  name : String
  type : AttributeType
deriving DecidableEq, Repr

/-- A table definition registered by `new TableV2(this, constructId, props)`:
the construct id, the configured table name and the partition key. -/
structure TableDef where
  constructId : String
  tableName : String
  partitionKey : AttributeDef
deriving DecidableEq, Repr

/-- An `ITableV2` handle. A handle is either `owned` (obtained from a
`new TableV2` call inside the stack whose id is recorded) or obtained by
`TableV2.fromTableAttributes` (recording the calling stack, the construct id,
the table name and the `globalIndexes` list). -/
inductive ITableV2 where
  | owned (ownerStackId : String) (table : TableDef)
  | importedByAttributes (stackId : String) (constructId : String)
      (tableName : String) (globalIndexes : List String)
deriving DecidableEq, Repr

/-- The `tableName` attribute of an `ITableV2` handle. -/
def ITableV2.tableName : ITableV2 → String
  | .owned _ t => t.tableName
  | .importedByAttributes _ _ n _ => n

/-- `TableV2.fromTableAttributes(scope, constructId, { tableName, globalIndexes })`:
builds an imported handle from a name, with no reference to any producing
stack. -/
def TableV2.fromTableAttributes (stackId constructId tableName : String)
    (globalIndexes : List String) : ITableV2 :=
  .importedByAttributes stackId constructId tableName globalIndexes

/-- A `NodejsFunction` definition: construct id, `entry`, and the
`environment` record as a list of key-value pairs. -/
structure FunctionDef where
  constructId : String
  entry : String
  environment : List (String × String)
deriving DecidableEq, Repr

/-- Access modes granted by the repository; only `grantReadData` occurs. -/
inductive AccessMode where
  | read
deriving DecidableEq, Repr

/-- A permission grant registered by `table.grantReadData(fn)`: the grantee
function's construct id, the table handle granted on, and the access mode. -/
structure Grant where
  grantee : String
  table : ITableV2
  access : AccessMode
deriving DecidableEq, Repr

/-- The stack ids of producing stacks referenced through owned handles in a
grant list. An `importedByAttributes` handle references no producing stack,
so only `owned` handles contribute. -/
def grantTableOwners (grants : List Grant) : List String :=
  grants.flatMap fun g =>
    match g.table with
    | .owned ownerStackId _ => [ownerStackId]
    | .importedByAttributes _ _ _ _ => []

/-! ## src/lib/producer.ts -/

/-- `UserServiceStack`: its id, the `public readonly usersTable` attribute,
and the table definitions it registers. -/
structure UserServiceStack where
  id : String
  usersTable : ITableV2
  tables : List TableDef
deriving DecidableEq, Repr

/-- Constructor of `UserServiceStack`: registers one `TableV2` with construct
id "UsersTable", hard-coded table name "Users" and partition key
`{ name: "PK", type: STRING }`, and assigns it to `this.usersTable`. -/
def UserServiceStack.build (id : String) : UserServiceStack :=
  let usersTableDef : TableDef :=
    { constructId := "UsersTable"
      tableName := "Users"
      partitionKey := { name := "PK", type := .STRING } }
  { id := id
    usersTable := .owned id usersTableDef
    tables := [usersTableDef] }

/-! ## src/lib/consumer-with-csr.ts -/

/-- Props of `OrderServiceStack`: `usersTable: ITableV2`. -/
structure OrderServiceStackProps where
  usersTable : ITableV2
deriving DecidableEq, Repr

/-- `OrderServiceStack`: its id and the functions and grants it registers. -/
structure OrderServiceStack where
  id : String
  functions : List FunctionDef
  grants : List Grant
deriving DecidableEq, Repr

/-- Constructor of `OrderServiceStack`: defines the `NodejsFunction`
"OrderFunction" with environment `USER_TABLE = props.usersTable.tableName`
and registers `props.usersTable.grantReadData(readUser)`. -/
def OrderServiceStack.build (id : String) (props : OrderServiceStackProps) :
    OrderServiceStack :=
  let readUser : FunctionDef :=
    { constructId := "OrderFunction"
      entry := "./lib/lambdas/handler.ts"
      environment := [("USER_TABLE", props.usersTable.tableName)] }
  { id := id
    functions := [readUser]
    grants := [{ grantee := readUser.constructId
                 table := props.usersTable
                 access := .read }] }

/-! ## src/lib/producer-config-based.ts -/

/-- Props of `ConfigBasedUserServiceStack` (`UserServiceStackProps` in the
source): `usersTableName: string`. -/
structure UserServiceStackProps where
  usersTableName : String
deriving DecidableEq, Repr

/-- `ConfigBasedUserServiceStack`: its id, the `public readonly usersTable`
attribute the class declares, and the table definitions it registers. -/
structure ConfigBasedUserServiceStack where
  id : String
  usersTable : ITableV2
  tables : List TableDef
deriving DecidableEq, Repr

/-- Constructor of `ConfigBasedUserServiceStack`: registers one `TableV2`
with construct id "UsersTable", table name `props.usersTableName` and
partition key `{ name: "PK", type: STRING }`, and assigns it to
`this.usersTable`. -/
def ConfigBasedUserServiceStack.build (id : String)
    (props : UserServiceStackProps) : ConfigBasedUserServiceStack :=
  let usersTableDef : TableDef :=
    { constructId := "UsersTable"
      tableName := props.usersTableName
      partitionKey := { name := "PK", type := .STRING } }
  { id := id
    usersTable := .owned id usersTableDef
    tables := [usersTableDef] }

/-- The `ITableV2`-typed public attributes of a `ConfigBasedUserServiceStack`
instance: the source declares exactly one, `public readonly usersTable`. -/
def ConfigBasedUserServiceStack.exposedTableHandles
    (s : ConfigBasedUserServiceStack) : List ITableV2 :=
  [s.usersTable]

/-! ## src/lib/consumer-config-based.ts -/

/-- Props of `ConfigBasedOrderServiceStack` (`OrderServiceStackProps` in the
source file): `usersTableName: string`. -/
structure ConfigBasedOrderServiceStackProps where
  usersTableName : String
deriving DecidableEq, Repr

/-- `ConfigBasedOrderServiceStack`: its id and the functions and grants it
registers. -/
structure ConfigBasedOrderServiceStack where
  id : String
  functions : List FunctionDef
  grants : List Grant
deriving DecidableEq, Repr

/-- Constructor of `ConfigBasedOrderServiceStack`: re-resolves a handle with
`TableV2.fromTableAttributes(this, "ImportedUsersTable",
{ tableName: props.usersTableName, globalIndexes: [] })`, defines the
`NodejsFunction` "OrderFunction" with environment
`USER_TABLE_NAME = props.usersTableName`, and registers
`usersTable.grantReadData(readUser)`. -/
def ConfigBasedOrderServiceStack.build (id : String)
    (props : ConfigBasedOrderServiceStackProps) : ConfigBasedOrderServiceStack :=
  let usersTable : ITableV2 :=
    TableV2.fromTableAttributes id "ImportedUsersTable" props.usersTableName []
  let readUser : FunctionDef :=
    { constructId := "OrderFunction"
      entry := "./lib/lambdas/handler.ts"
      environment := [("USER_TABLE_NAME", props.usersTableName)] }
  { id := id
    functions := [readUser]
    grants := [{ grantee := readUser.constructId
                 table := usersTable
                 access := .read }] }

/-! ## src/bin/problemStack.ts -/

/-- The composed app: the four stacks constructed by the entry point. -/
structure App where
  userServiceStack : UserServiceStack
  orderServiceStack : OrderServiceStack
  configBasedUserServiceStack : ConfigBasedUserServiceStack
  configBasedOrderServiceStack : ConfigBasedOrderServiceStack
deriving DecidableEq, Repr

/-- `const tableName = "Users"` in the entry point. -/
def entryPointTableName : String := "Users"

/-- The entry point composition: `UserServiceStack(app, "UserService")`,
then `OrderServiceStack(app, "OrderService", { usersTable:
userServiceStack.usersTable })`, then the two config-based stacks, both
receiving `usersTableName: tableName`. -/
def app : App :=
  let userServiceStack := UserServiceStack.build "UserService"
  { userServiceStack := userServiceStack
    orderServiceStack :=
      OrderServiceStack.build "OrderService"
        { usersTable := userServiceStack.usersTable }
    configBasedUserServiceStack :=
      ConfigBasedUserServiceStack.build "ConfigBasedUserService"
        { usersTableName := entryPointTableName }
    configBasedOrderServiceStack :=
      ConfigBasedOrderServiceStack.build "ConfigBasedOrderService"
        { usersTableName := entryPointTableName } }

/-- All table-creating definitions registered across the composed app. -/
def App.tableDefs (a : App) : List TableDef :=
  a.userServiceStack.tables ++ a.configBasedUserServiceStack.tables

/-- The table-creating definitions in the composed app whose configured
table name is `n`. -/
def App.producingDefsFor (a : App) (n : String) : List TableDef :=
  a.tableDefs.filter fun t => t.tableName == n

/-! ## Two-phase decoupling procedure (spec section 4.5)

The procedure is documented narrative, not executable code in the
repository; the following definitions model it from the spec. -/

/-- Modelled from the spec: an export entry of a producer's deployment
artifact — an export channel (name) carrying an exported value. The
repository contains no executable artifact-template code; this follows the
spec's description of exports in section 4.5. -/
structure ExportEntry where
  channel : String
  value : String
deriving DecidableEq, Repr

/-- Modelled from the spec: a producer's deployment artifact, reduced to its
list of exports. -/
structure ProducerArtifact where
  exports : List ExportEntry
deriving DecidableEq, Repr

/-- Modelled from the spec: a consumer's deployment artifact, reduced to the
list of exported values it imports. -/
structure ConsumerArtifact where
  imports : List String
deriving DecidableEq, Repr

/-- Modelled from the spec: a state of the two-phase procedure, a pair of
producer exports and consumer imports. -/
structure MigrationState where
  producer : ProducerArtifact
  consumer : ConsumerArtifact
deriving DecidableEq, Repr

/-- The exports of a producer artifact carrying the value `v`. -/
def ProducerArtifact.exportsOfValue (p : ProducerArtifact) (v : String) :
    List ExportEntry :=
  p.exports.filter fun e => e.value == v

/-- Modelled from the spec: State A (coupled) — the producer exports the
resource value `v` on the original channel `orig`; the consumer imports it. -/
def stateA (v orig : String) : MigrationState :=
  { producer := { exports := [{ channel := orig, value := v }] }
    consumer := { imports := [v] } }

/-- Modelled from the spec: State B (half-decoupled), after transition A→B —
the producer carries the original export plus a dummy export of the same
value on an independent channel `dummy`; the consumer no longer imports. -/
def stateB (v orig dummy : String) : MigrationState :=
  { producer := { exports := [{ channel := orig, value := v },
                              { channel := dummy, value := v }] }
    consumer := { imports := [] } }

/-- Modelled from the spec: State C (decoupled), after transition B→C — no
export/import relationship remains. -/
def stateC : MigrationState :=
  { producer := { exports := [] }
    consumer := { imports := [] } }

/-- Modelled from the spec: the sequence of states visited when the
procedure's order is followed. -/
def twoPhaseProcedure (v orig dummy : String) : List MigrationState :=
  [stateA v orig, stateB v orig dummy, stateC]

/-- The exports present in `s` and removed when moving to the next state. -/
def removedExports (s next : MigrationState) : List ExportEntry :=
  s.producer.exports.filter fun e => !(next.producer.exports.contains e)

/-- Modelled from the spec: a transition respects the platform rule when no
export it removes is still imported by the consumer, neither before nor
after the transition. The platform rejects the removal of an export while a
consumer artifact still imports its value. -/
def removalSafe (s next : MigrationState) : Prop :=
  ∀ e ∈ removedExports s next,
    e.value ∉ s.consumer.imports ∧ e.value ∉ next.consumer.imports

instance (s next : MigrationState) : Decidable (removalSafe s next) := by
  unfold removalSafe; infer_instance

/-- The consecutive pairs of a list of states: the transitions taken. -/
def consecutivePairs {α : Type} : List α → List (α × α)
  | [] => []
  | [_] => []
  | a :: b :: rest => (a, b) :: consecutivePairs (b :: rest)

/-! ## Theorems -/

/-- C1, counterexample: the claim that `ConfigBasedUserServiceStack` exposes
no table handle is false — at props `{ usersTableName := "Users" }` its
public interface contains the attribute `usersTable`, an owned handle to the
table it defines. -/
theorem C1_counterexample :
    (ConfigBasedUserServiceStack.build "ConfigBasedUserService"
      { usersTableName := "Users" }).exposedTableHandles ≠ [] := by
  decide

/-- C1, amended: for every input props, the configuration-based producing
unit exposes exactly one public table handle, `usersTable`, an owned
reference to the table it defines; the composed app's configuration-based
consumer nevertheless obtains no owned handle — it references no producing
stack, knowing only the table name. -/
theorem C1_amended_exposes_usersTable (id : String)
    (props : UserServiceStackProps) :
    (ConfigBasedUserServiceStack.build id props).exposedTableHandles =
      [ITableV2.owned id
        { constructId := "UsersTable"
          tableName := props.usersTableName
          partitionKey := { name := "PK", type := .STRING } }] ∧
    grantTableOwners app.configBasedOrderServiceStack.grants = [] :=
  ⟨rfl, rfl⟩

/-- C2, counterexample: in the composed app the name "Users" does not have
exactly one table-creating definition — `UserServiceStack` hard-codes the
name "Users" and `ConfigBasedUserServiceStack` receives the same name, so
two producing definitions with that name are constructed. -/
theorem C2_counterexample :
    (app.producingDefsFor "Users").length ≠ 1 := by
  decide

/-- C2, amended: the composed app contains exactly two table-creating
definitions named "Users", one from each illustrative pair; within each
pair exactly one producing definition with that name is constructed. -/
theorem C2_amended_one_per_pair :
    (app.producingDefsFor "Users").length = 2 ∧
    (app.userServiceStack.tables.filter fun t =>
      t.tableName == "Users").length = 1 ∧
    (app.configBasedUserServiceStack.tables.filter fun t =>
      t.tableName == "Users").length = 1 := by
  decide

/-- C3: in the app composition, the direct-reference consumer's function has
environment `USER_TABLE = "Users"` and the configuration-based consumer's
function has environment `USER_TABLE_NAME = "Users"`; in both pairs the
variable naming the table has the literal value "Users". -/
theorem C3_env_is_literal_Users :
    (app.orderServiceStack.functions.map fun f => f.environment) =
      [[("USER_TABLE", "Users")]] ∧
    (app.configBasedOrderServiceStack.functions.map fun f => f.environment) =
      [[("USER_TABLE_NAME", "Users")]] :=
  ⟨rfl, rfl⟩

/-- C4: for every table name, the configuration-based consumer references no
producing stack — every handle in its grants is an import-by-attributes of
the given name — and the stack the entry point composes with the shared name
"Users" is exactly the stack built independently from that name string
alone. -/
theorem C4_consumer_independent (id : String)
    (props : ConfigBasedOrderServiceStackProps) :
    grantTableOwners (ConfigBasedOrderServiceStack.build id props).grants = [] ∧
    ((ConfigBasedOrderServiceStack.build id props).grants.map fun g => g.table) =
      [ITableV2.importedByAttributes id "ImportedUsersTable"
        props.usersTableName []] ∧
    ConfigBasedOrderServiceStack.build "ConfigBasedOrderService"
      { usersTableName := "Users" } = app.configBasedOrderServiceStack :=
  ⟨rfl, rfl, rfl⟩

/-- C5, counterexample: the configuration-based consumer does not perform
the same steps as the direct-reference consumer differing only in how the
handle is obtained — at name "Users", feeding the direct-reference consumer
the very handle the configuration-based consumer re-resolves yields a
different function definition (environment key `USER_TABLE` versus
`USER_TABLE_NAME`). -/
theorem C5_counterexample :
    (ConfigBasedOrderServiceStack.build "ConfigBasedOrderService"
      { usersTableName := "Users" }).functions ≠
    (OrderServiceStack.build "ConfigBasedOrderService"
      { usersTable := TableV2.fromTableAttributes "ConfigBasedOrderService"
          "ImportedUsersTable" "Users" [] }).functions := by
  decide

/-- C5, amended: for every table name, the configuration-based consumer
first re-resolves a handle by attributes from the name and then performs the
same steps as the direct-reference consumer given that handle — same read
grant, same function construct id, entry and environment value — differing,
besides how the handle is obtained, only in the environment variable's key
(`USER_TABLE_NAME` instead of `USER_TABLE`). -/
theorem C5_amended_refines_direct (id name : String) :
    ((ConfigBasedOrderServiceStack.build id { usersTableName := name }).grants.map
      fun g => g.table) =
      [TableV2.fromTableAttributes id "ImportedUsersTable" name []] ∧
    (ConfigBasedOrderServiceStack.build id { usersTableName := name }).grants =
      (OrderServiceStack.build id
        { usersTable := TableV2.fromTableAttributes id "ImportedUsersTable"
            name [] }).grants ∧
    ((ConfigBasedOrderServiceStack.build id { usersTableName := name }).functions.map
      fun f => (f.constructId, f.entry, f.environment.map Prod.snd)) =
      ((OrderServiceStack.build id
        { usersTable := TableV2.fromTableAttributes id "ImportedUsersTable"
            name [] }).functions.map
        fun f => (f.constructId, f.entry, f.environment.map Prod.snd)) ∧
    ((ConfigBasedOrderServiceStack.build id { usersTableName := name }).functions.map
      fun f => f.environment.map Prod.fst) = [["USER_TABLE_NAME"]] ∧
    ((OrderServiceStack.build id
      { usersTable := TableV2.fromTableAttributes id "ImportedUsersTable"
          name [] }).functions.map
      fun f => f.environment.map Prod.fst) = [["USER_TABLE"]] :=
  ⟨rfl, rfl, rfl, rfl, rfl⟩

/-- C6: in the app composition, the producing unit constructed first exposes
its table as the public attribute `usersTable` — an owned handle of stack
"UserService" — the direct-reference consumer's grant carries exactly that
handle, and the consumer therefore references exactly the stack
"UserService": the build-time coupling exists. -/
theorem C6_direct_pair_coupling :
    app.userServiceStack.usersTable =
      ITableV2.owned "UserService"
        { constructId := "UsersTable"
          tableName := "Users"
          partitionKey := { name := "PK", type := .STRING } } ∧
    app.orderServiceStack.grants =
      [{ grantee := "OrderFunction"
         table := app.userServiceStack.usersTable
         access := .read }] ∧
    grantTableOwners app.orderServiceStack.grants = ["UserService"] :=
  ⟨rfl, rfl, rfl⟩

/-- C7: for every input, each consuming unit defines exactly the function
"OrderFunction" and declares exactly one read grant from that function to
the table it was given (direct-reference variant) or re-resolved
(configuration-based variant). -/
theorem C7_read_grants_declared (idD idC : String)
    (pD : OrderServiceStackProps) (pC : ConfigBasedOrderServiceStackProps) :
    ((OrderServiceStack.build idD pD).functions.map fun f => f.constructId) =
      ["OrderFunction"] ∧
    (OrderServiceStack.build idD pD).grants =
      [{ grantee := "OrderFunction", table := pD.usersTable, access := .read }] ∧
    ((ConfigBasedOrderServiceStack.build idC pC).functions.map
      fun f => f.constructId) = ["OrderFunction"] ∧
    (ConfigBasedOrderServiceStack.build idC pC).grants =
      [{ grantee := "OrderFunction"
         table := TableV2.fromTableAttributes idC "ImportedUsersTable"
           pC.usersTableName []
         access := .read }] :=
  ⟨rfl, rfl, rfl, rfl⟩

/-- C8: in the spec-modelled two-phase procedure over (producer exports,
consumer imports), after transition A→B the consumer imports nothing and the
producer carries the original export plus exactly one additional dummy
export of the same value on a distinct channel; after transition B→C the
producer has zero exports of that value; and no transition of the procedure
removes an export whose value any consumer artifact still imports. -/
theorem C8_twoPhase_procedure (v orig dummy : String) (h : orig ≠ dummy) :
    (stateB v orig dummy).consumer.imports = [] ∧
    (stateB v orig dummy).producer.exports =
      (stateA v orig).producer.exports ++ [{ channel := dummy, value := v }] ∧
    ({ channel := dummy, value := v } : ExportEntry) ≠
      { channel := orig, value := v } ∧
    stateC.producer.exportsOfValue v = [] ∧
    ∀ p ∈ consecutivePairs (twoPhaseProcedure v orig dummy),
      removalSafe p.1 p.2 := by
  refine ⟨rfl, rfl, ?_, rfl, ?_⟩
  · intro hc
    exact h (congrArg ExportEntry.channel hc).symm
  · intro p hp
    simp only [twoPhaseProcedure, consecutivePairs, List.mem_cons,
      List.not_mem_nil, or_false] at hp
    rcases hp with h1 | h1 <;> subst h1 <;>
      simp [removalSafe, removedExports, stateA, stateB, stateC]

/-- C8, witness: the procedure instantiated at value "Users", original
channel "ExportsOutputRefUsersTable" and dummy channel "DummyTableExport". -/
theorem C8_twoPhase_procedure_witness :
    "ExportsOutputRefUsersTable" ≠ "DummyTableExport" ∧
    ((stateB "Users" "ExportsOutputRefUsersTable" "DummyTableExport").consumer.imports = [] ∧
    (stateB "Users" "ExportsOutputRefUsersTable" "DummyTableExport").producer.exports =
      (stateA "Users" "ExportsOutputRefUsersTable").producer.exports ++
        [{ channel := "DummyTableExport", value := "Users" }] ∧
    ({ channel := "DummyTableExport", value := "Users" } : ExportEntry) ≠
      { channel := "ExportsOutputRefUsersTable", value := "Users" } ∧
    stateC.producer.exportsOfValue "Users" = [] ∧
    ∀ p ∈ consecutivePairs
      (twoPhaseProcedure "Users" "ExportsOutputRefUsersTable" "DummyTableExport"),
      removalSafe p.1 p.2) :=
  ⟨by decide,
   C8_twoPhase_procedure "Users" "ExportsOutputRefUsersTable" "DummyTableExport"
     (by decide)⟩

/-- C9: for every props, the configuration-based consumer re-resolves the
table under exactly the name `props.usersTableName` and sets the function's
`USER_TABLE_NAME` environment variable to the same string, so the name the
function is told about and the table it is granted access to always
agree. -/
theorem C9_name_agreement (id : String)
    (props : ConfigBasedOrderServiceStackProps) :
    ((ConfigBasedOrderServiceStack.build id props).grants.map
      fun g => g.table.tableName) = [props.usersTableName] ∧
    (ConfigBasedOrderServiceStack.build id props).functions =
      [{ constructId := "OrderFunction"
         entry := "./lib/lambdas/handler.ts"
         environment := [("USER_TABLE_NAME", props.usersTableName)] }] :=
  ⟨rfl, rfl⟩

/-- C10: for every input table name, the configuration-based consumer
re-resolves the table with an empty global-secondary-index list — the
re-resolved handle in its grant carries exactly the empty `globalIndexes`
list. -/
theorem C10_empty_globalIndexes (id : String)
    (props : ConfigBasedOrderServiceStackProps) :
    ((ConfigBasedOrderServiceStack.build id props).grants.map fun g => g.table) =
      [ITableV2.importedByAttributes id "ImportedUsersTable"
        props.usersTableName []] :=
  rfl
